import Mathlib

/-!
Formal model of the SpaceSim resonance / audio engine.

This file gives a shallow embedding, over the real numbers, of the
resonance-driven physics in `src/ship.py` (`Ship.update`,
`Ship.handle_input`) and of the audio machinery in `src/audio_system.py`
(`SoundEffect`, `AudioSystem.detect_harmonic_pairs`,
`AudioSystem._audio_callback`), together with theorems checking the
specification's testable properties against these definitions.
Machine floats are modelled by `ℝ` (sample data of precomputed waveform
buffers by `ℚ`, so that the sound-effect pool stays decidable); Python
integers by `ℕ`.
-/

namespace SpaceSim

noncomputable section

/-! ## Constants (src/constants.py) -/

/-- constants.py:20 `PHI = (1 + np.sqrt(5)) / 2`. -/
def PHI : ℝ := (1 + Real.sqrt 5) / 2

/-- constants.py:19 `FREQUENCY_RANGE = (200.0, 800.0)`. -/
def FREQUENCY_RANGE : ℝ × ℝ := (200, 800)

/-- constants.py:57 `POWER_BUILD_THRESHOLD = 0.8`. -/
def POWER_BUILD_THRESHOLD : ℝ := 0.8

/-- constants.py:58 `POWER_BUILD_TIME = 5.0`. -/
def POWER_BUILD_TIME : ℝ := 5

/-- constants.py:89 `SLOWDOWN_DIST = 20.0`. -/
def SLOWDOWN_DIST : ℝ := 20

/-- constants.py:17 `MAX_VELOCITY_BASE = 10.0`. -/
def MAX_VELOCITY_BASE : ℝ := 10

/-- constants.py:18 `RESONANCE_WIDTH_BASE = 10.0`. -/
def RESONANCE_WIDTH_BASE : ℝ := 10

/-- constants.py:23 `SAMPLE_RATE = 44100`. -/
def SAMPLE_RATE : ℝ := 44100

/-- constants.py:24 `SCHUMANN_FREQ = 7.83`. -/
def SCHUMANN_FREQ : ℝ := 7.83

/-- constants.py:25 `SCHUMANN_VOLUME = 0.01`. -/
def SCHUMANN_VOLUME : ℝ := 0.01

/-- constants.py:70 `RIFT_CHARGE_TIME = 4.0`. -/
def RIFT_CHARGE_TIME : ℝ := 4

/-- constants.py:207 `INTERMOD_DEPTH = 0.08`. -/
def INTERMOD_DEPTH : ℝ := 0.08

/-- constants.py:187 `HARMONIC_TOLERANCE = 0.02`. -/
def HARMONIC_TOLERANCE : ℝ := 0.02

/-! ## Core resonance model (src/ship.py) -/

/-- Tuaoi crystal modes, constants.py:362-405 `TUAOI_MODES` (the keys of the
dict, in order). -/
inductive TuaoiMode
  | healing
  | navigation
  | communication
  | power
  | regeneration
  | transcendence
deriving DecidableEq

/-- ship.py:1917-1920: the resonance width used for dimension `i`; in
transcendence mode, dimensions 3 and 4 get the width multiplied by
`TUAOI_MODES['transcendence']['rate'] = 1.4`. -/
def effectiveWidth (mode : TuaoiMode) (i : ℕ) (width : ℝ) : ℝ :=
  if mode = TuaoiMode.transcendence ∧ 3 ≤ i then width * 1.4 else width

/-- The Lorentzian resonance curve,
`1 / (1 + (delta_f / width)**2)`, as computed at ship.py:1921,
ship.py:1824 and audio_system.py:430. -/
def resonanceLevel (drive target width : ℝ) : ℝ :=
  1 / (1 + ((drive - target) / width) ^ 2)

/-- ship.py:1924-1927: per-tick resonance-power accumulator update,
`resonance_power[i] += dt` when the level exceeds `POWER_BUILD_THRESHOLD`,
otherwise hard reset to 0. -/
def updatePower (dt level power : ℝ) : ℝ :=
  if POWER_BUILD_THRESHOLD < level then power + dt else 0

/-- ship.py:1928 `boost = 1 + (self.resonance_power[i] / POWER_BUILD_TIME) * PHI`. -/
def boostOf (power : ℝ) : ℝ := 1 + power / POWER_BUILD_TIME * PHI

/-- The `np.sign` function on reals. -/
def signR (x : ℝ) : ℝ := if 0 < x then 1 else if x < 0 then -1 else 0

/-- Per-dimension slice of the ship state mutated by the resonance/velocity
loop at ship.py:1914-1929. -/
structure DimState where
  r_drive : ℝ
  f_target : ℝ
  resonance_level : ℝ
  resonance_power : ℝ
  velocity : ℝ

/-- ship.py:1914-1929: one simulation tick of the resonance model for
dimension `i` — recompute the resonance level through the effective width,
update the power accumulator, and set the velocity component. -/
def tickDim (mode : TuaoiMode) (i : ℕ) (width max_velocity dt : ℝ)
    (s : DimState) : DimState :=
  let delta_f := s.r_drive - s.f_target
  let level := resonanceLevel s.r_drive s.f_target (effectiveWidth mode i width)
  let power := updatePower dt level s.resonance_power
  { s with
    resonance_level := level
    resonance_power := power
    velocity := max_velocity * level * signR delta_f * boostOf power }

/-! ## Helper lemmas on the resonance curve -/

lemma resonanceLevel_pos (d t w : ℝ) : 0 < resonanceLevel d t w := by
  unfold resonanceLevel
  positivity

lemma resonanceLevel_le_one (d t w : ℝ) : resonanceLevel d t w ≤ 1 := by
  unfold resonanceLevel
  rw [div_le_one (by positivity)]
  nlinarith [sq_nonneg ((d - t) / w)]

lemma resonanceLevel_eq_one_iff (d t w : ℝ) (hw : w ≠ 0) :
    resonanceLevel d t w = 1 ↔ d = t := by
  unfold resonanceLevel
  rw [div_eq_one_iff_eq (by positivity)]
  constructor
  · intro h
    have h2 : ((d - t) / w) ^ 2 = 0 := by linarith
    have h3 : (d - t) / w = 0 := by
      exact sq_eq_zero_iff.mp h2
    rcases div_eq_zero_iff.mp h3 with h4 | h4
    · linarith
    · exact absurd h4 hw
  · intro h
    subst h
    simp

lemma resonanceLevel_strictAnti (t w d1 d2 : ℝ) (hw : w ≠ 0)
    (h : |d1 - t| < |d2 - t|) :
    resonanceLevel d2 t w < resonanceLevel d1 t w := by
  unfold resonanceLevel
  have hw2 : (0 : ℝ) < w ^ 2 := by positivity
  have hx : (d1 - t) ^ 2 < (d2 - t) ^ 2 := by
    have h2 := pow_lt_pow_left₀ h (abs_nonneg (d1 - t)) (two_ne_zero)
    simpa [sq_abs] using h2
  apply one_div_lt_one_div_of_lt
  · positivity
  · have h3 : (d1 - t) ^ 2 / w ^ 2 < (d2 - t) ^ 2 / w ^ 2 :=
      (div_lt_div_iff_of_pos_right hw2).mpr hx
    calc 1 + ((d1 - t) / w) ^ 2 = 1 + (d1 - t) ^ 2 / w ^ 2 := by rw [div_pow]
      _ < 1 + (d2 - t) ^ 2 / w ^ 2 := by linarith
      _ = 1 + ((d2 - t) / w) ^ 2 := by rw [div_pow]

lemma effectiveWidth_of_ne (mode : TuaoiMode) (i : ℕ) (w : ℝ)
    (hmode : mode ≠ TuaoiMode.transcendence) :
    effectiveWidth mode i w = w := by
  unfold effectiveWidth
  rw [if_neg]
  rintro ⟨h1, -⟩
  exact hmode h1

lemma effectiveWidth_of_lower (mode : TuaoiMode) (i : ℕ) (w : ℝ)
    (hi : i < 3) :
    effectiveWidth mode i w = w := by
  unfold effectiveWidth
  rw [if_neg]
  rintro ⟨-, h3⟩
  omega

lemma effectiveWidth_pos (mode : TuaoiMode) (i : ℕ) (w : ℝ) (hw : 0 < w) :
    0 < effectiveWidth mode i w := by
  unfold effectiveWidth
  split_ifs
  · linarith
  · exact hw

lemma tickDim_resonance_level (mode : TuaoiMode) (i : ℕ)
    (width max_velocity dt : ℝ) (s : DimState) :
    (tickDim mode i width max_velocity dt s).resonance_level
      = resonanceLevel s.r_drive s.f_target (effectiveWidth mode i width) := rfl

lemma tickDim_resonance_power (mode : TuaoiMode) (i : ℕ)
    (width max_velocity dt : ℝ) (s : DimState) :
    (tickDim mode i width max_velocity dt s).resonance_power
      = updatePower dt (tickDim mode i width max_velocity dt s).resonance_level
          s.resonance_power := rfl

/-! ## Claim theorems: resonance model -/

/-- C1 (amended): on every simulation tick, in every Tuaoi mode and for
every dimension, the resonance level equals
`1 / (1 + ((drive - target) / effectiveWidth)^2)` where the effective
width is `resonanceWidth` except on transcendence-mode ticks for
dimensions 3-4, where it is `1.4 * resonanceWidth`; for every mode and
dimension the level is positive, at most 1, equals 1 exactly when
drive = target, and is strictly decreasing in `|drive - target|`; drive
450 / target 440 / width 10 in a spatial dimension (index < 3, where the
effective width is always the plain width) yields exactly `1/2`. -/
theorem C1_resonance_curve (mode : TuaoiMode) (i : ℕ)
    (width max_velocity dt : ℝ) (s : DimState) (hw : 0 < width) :
    (tickDim mode i width max_velocity dt s).resonance_level
        = 1 / (1 + ((s.r_drive - s.f_target)
            / effectiveWidth mode i width) ^ 2)
    ∧ (mode = TuaoiMode.transcendence ∧ 3 ≤ i →
        effectiveWidth mode i width = width * 1.4)
    ∧ (¬(mode = TuaoiMode.transcendence ∧ 3 ≤ i) →
        effectiveWidth mode i width = width)
    ∧ 0 < (tickDim mode i width max_velocity dt s).resonance_level
    ∧ (tickDim mode i width max_velocity dt s).resonance_level ≤ 1
    ∧ ((tickDim mode i width max_velocity dt s).resonance_level = 1
        ↔ s.r_drive = s.f_target)
    ∧ (∀ s2 : DimState, s2.f_target = s.f_target →
        |s.r_drive - s.f_target| < |s2.r_drive - s2.f_target| →
        (tickDim mode i width max_velocity dt s2).resonance_level
          < (tickDim mode i width max_velocity dt s).resonance_level)
    ∧ (∀ j : ℕ, j < 3 →
        (tickDim mode j 10 max_velocity dt
          { r_drive := 450, f_target := 440, resonance_level := 0,
            resonance_power := 0, velocity := 0 }).resonance_level = 1 / 2) := by
  have hW : 0 < effectiveWidth mode i width := effectiveWidth_pos mode i width hw
  have hWne : effectiveWidth mode i width ≠ 0 := ne_of_gt hW
  have hlev : (tickDim mode i width max_velocity dt s).resonance_level
      = resonanceLevel s.r_drive s.f_target (effectiveWidth mode i width) :=
    tickDim_resonance_level mode i width max_velocity dt s
  refine ⟨by rw [hlev]; rfl, ?_, ?_, ?_, ?_, ?_, ?_, ?_⟩
  · intro h
    unfold effectiveWidth
    rw [if_pos h]
  · intro h
    unfold effectiveWidth
    rw [if_neg h]
  · rw [hlev]; exact resonanceLevel_pos _ _ _
  · rw [hlev]; exact resonanceLevel_le_one _ _ _
  · rw [hlev]
    exact resonanceLevel_eq_one_iff _ _ _ hWne
  · intro s2 hft h
    have hlev2 : (tickDim mode i width max_velocity dt s2).resonance_level
        = resonanceLevel s2.r_drive s2.f_target (effectiveWidth mode i width) :=
      tickDim_resonance_level mode i width max_velocity dt s2
    rw [hlev, hlev2, hft]
    exact resonanceLevel_strictAnti s.f_target (effectiveWidth mode i width)
      s.r_drive s2.r_drive hWne (by rw [← hft] at h ⊢; exact h)
  · intro j hj
    rw [tickDim_resonance_level, effectiveWidth_of_lower mode j 10 hj]
    unfold resonanceLevel
    norm_num

/-- C1 witness: evaluating the tick at drive 450, target 440, width 10 in
dimension 0, in transcendence mode (no mode restriction applies). -/
theorem C1_resonance_curve_witness :
    (tickDim TuaoiMode.transcendence 0 10 0 0
      { r_drive := 450, f_target := 440, resonance_level := 0,
        resonance_power := 0, velocity := 0 }).resonance_level = 1 / 2 :=
  (C1_resonance_curve TuaoiMode.transcendence 4 10 0 0
    { r_drive := 450, f_target := 440, resonance_level := 0,
      resonance_power := 0, velocity := 0 }
    (by norm_num)).2.2.2.2.2.2.2 0 (by norm_num)

/-- C1 counterexample: a transcendence-mode tick (reachable by cycling
Tuaoi modes with the G key, ship.py:587-590) on dimension 3 with drive
450, target 440, width 10 computes resonance level `49/74` (through the
widened effective width `14`), not the `1/2` the claimed formula with
`resonanceWidth` demands. -/
theorem C1_transcendence_counterexample :
    (tickDim TuaoiMode.transcendence 3 10 0 0
      { r_drive := 450, f_target := 440, resonance_level := 0,
        resonance_power := 0, velocity := 0 }).resonance_level = 49 / 74
    ∧ (49 : ℝ) / 74 ≠ 1 / (1 + (((450 : ℝ) - 440) / 10) ^ 2) := by
  constructor
  · rw [tickDim_resonance_level]
    unfold effectiveWidth
    rw [if_pos ⟨rfl, by norm_num⟩]
    unfold resonanceLevel
    norm_num
  · norm_num

/-- C4: for `dt ≥ 0`, the tick's power accumulator is exactly the
`updatePower` step: it gains `dt` (hence does not decrease) whenever the
freshly computed resonance level exceeds 0.8, and is reset to exactly 0
whenever the level is at or below 0.8 — no partial decay. -/
theorem C4_power_accumulator (mode : TuaoiMode) (i : ℕ)
    (width max_velocity dt : ℝ) (s : DimState) (hdt : 0 ≤ dt) :
    (tickDim mode i width max_velocity dt s).resonance_power
        = updatePower dt
            (tickDim mode i width max_velocity dt s).resonance_level
            s.resonance_power
    ∧ (POWER_BUILD_THRESHOLD
          < (tickDim mode i width max_velocity dt s).resonance_level →
        (tickDim mode i width max_velocity dt s).resonance_power
            = s.resonance_power + dt
        ∧ s.resonance_power
            ≤ (tickDim mode i width max_velocity dt s).resonance_power)
    ∧ ((tickDim mode i width max_velocity dt s).resonance_level
          ≤ POWER_BUILD_THRESHOLD →
        (tickDim mode i width max_velocity dt s).resonance_power = 0) := by
  refine ⟨tickDim_resonance_power mode i width max_velocity dt s, ?_, ?_⟩
  · intro h
    have heq : (tickDim mode i width max_velocity dt s).resonance_power
        = s.resonance_power + dt := by
      rw [tickDim_resonance_power, updatePower, if_pos h]
    exact ⟨heq, by rw [heq]; linarith⟩
  · intro h
    rw [tickDim_resonance_power, updatePower, if_neg (not_lt.mpr h)]

/-- C4 witness: a tick at perfect resonance with power 2 and dt 1 yields
power 3. -/
theorem C4_power_accumulator_witness :
    (tickDim TuaoiMode.healing 0 1 1 1
      { r_drive := 440, f_target := 440, resonance_level := 0,
        resonance_power := 2, velocity := 0 }).resonance_power = 2 + 1 := by
  refine ((C4_power_accumulator TuaoiMode.healing 0 1 1 1
    { r_drive := 440, f_target := 440, resonance_level := 0,
      resonance_power := 2, velocity := 0 } (by norm_num)).2.1 ?_).1
  rw [tickDim_resonance_level]
  unfold resonanceLevel POWER_BUILD_THRESHOLD
  norm_num

/-- C5: the tick's velocity component is exactly
`max_velocity * resonanceLevel * sign(drive - target) * boost` with
`boost = 1 + (power / POWER_BUILD_TIME) * PHI`; when drive = target = 440
and width = 10 the resonance level is exactly 1 and the velocity is
exactly 0 (the sign factor is 0 at exact match — no undefined value
arises in the real-number model). -/
theorem C5_velocity_formula (mode : TuaoiMode) (i : ℕ)
    (width max_velocity dt : ℝ) (s : DimState) :
    (tickDim mode i width max_velocity dt s).velocity
        = max_velocity
            * (tickDim mode i width max_velocity dt s).resonance_level
            * signR (s.r_drive - s.f_target)
            * boostOf (tickDim mode i width max_velocity dt s).resonance_power
    ∧ ∀ lev pow vel : ℝ,
        (tickDim mode i 10 max_velocity dt
          { r_drive := 440, f_target := 440, resonance_level := lev,
            resonance_power := pow, velocity := vel }).resonance_level = 1
        ∧ (tickDim mode i 10 max_velocity dt
            { r_drive := 440, f_target := 440, resonance_level := lev,
              resonance_power := pow, velocity := vel }).velocity = 0 := by
  constructor
  · rfl
  · intro lev pow vel
    constructor
    · rw [tickDim_resonance_level]
      unfold resonanceLevel
      norm_num
    · show max_velocity * resonanceLevel 440 440 (effectiveWidth mode i 10)
          * signR ((440 : ℝ) - 440) * _ = 0
      have hs : signR ((440 : ℝ) - 440) = 0 := by
        unfold signR
        norm_num
      rw [hs]
      ring

/-! ## Navigation: manual tuning, manual-mode navigation, autopilot
(src/ship.py `Ship.handle_input`, `Ship.update`) -/

/-- ship.py:858-859: arrow-up manual tuning,
`r_drive += rate * DT` then `min(r_drive, FREQUENCY_RANGE[1])`. -/
def manualTuneUp (tuning_rate dt f : ℝ) : ℝ :=
  min (f + tuning_rate * dt) FREQUENCY_RANGE.2

/-- ship.py:861-862: arrow-down manual tuning,
`r_drive -= rate * DT` then `max(r_drive, FREQUENCY_RANGE[0])`. -/
def manualTuneDown (tuning_rate dt f : ℝ) : ℝ :=
  max (f - tuning_rate * dt) FREQUENCY_RANGE.1

/-- ship.py:909-918: manual-mode navigation for a spatial dimension.
With a nonzero desired velocity the drive is set to
`f_target + sign(desired_vel) * width * sqrt(1/target_res - 1)` where
`target_res = min(0.999, |desired_vel| / max_velocity)` (written out twice
here where the Python binds it to a local variable); with desired velocity
0 the drive snaps to the target frequency. No clamping is applied. -/
def manualNavDrive (width max_velocity f_target desired_vel r_drive : ℝ) : ℝ :=
  if desired_vel ≠ 0 then
    if 0 < min 0.999 (|desired_vel| / max_velocity) then
      f_target + signR desired_vel
        * (width * Real.sqrt (1 / min 0.999 (|desired_vel| / max_velocity) - 1))
    else r_drive
  else f_target

/-- ship.py:1871-1872: the autopilot's inverse solve of the resonance
curve, `delta = resonance_width * sqrt(1 / target_res - 1)`. -/
def inverseResonanceDelta (width resDes : ℝ) : ℝ :=
  width * Real.sqrt (1 / resDes - 1)

/-- ship.py:1865-1869: the desired resonance the autopilot requests for a
dimension, from the distance `nrm` to the locked target and the
dimension's coordinate delta `dir_i`:
`slowdown_factor = min(1, nrm / SLOWDOWN_DIST)`,
`desired_vel_i = dir_i / nrm * max_velocity * slowdown_factor`,
`target_res = min(0.999, |desired_vel_i| / max_velocity)` when
`|desired_vel_i| > 0.01`, else 0. -/
def autopilotTargetRes (nrm dir_i max_velocity : ℝ) : ℝ :=
  if 0.01 < |dir_i / nrm * max_velocity * min 1 (nrm / SLOWDOWN_DIST)| then
    min 0.999
      (|dir_i / nrm * max_velocity * min 1 (nrm / SLOWDOWN_DIST)| / max_velocity)
  else 0

/-! ## Claim theorems: navigation -/

/-- C2 (amended): manual tuning is clamped to `[200, 800]` — starting from
an in-range drive frequency, both tuning directions stay in range for any
nonnegative step. (The unclamped navigation paths are the subject of the
counterexample theorem.) -/
theorem C2_manual_tuning_clamped (tuning_rate dt f : ℝ)
    (hf1 : FREQUENCY_RANGE.1 ≤ f) (hf2 : f ≤ FREQUENCY_RANGE.2)
    (h : 0 ≤ tuning_rate * dt) :
    (FREQUENCY_RANGE.1 ≤ manualTuneUp tuning_rate dt f
      ∧ manualTuneUp tuning_rate dt f ≤ FREQUENCY_RANGE.2)
    ∧ (FREQUENCY_RANGE.1 ≤ manualTuneDown tuning_rate dt f
      ∧ manualTuneDown tuning_rate dt f ≤ FREQUENCY_RANGE.2) := by
  have e1 : FREQUENCY_RANGE.1 = (200 : ℝ) := rfl
  have e2 : FREQUENCY_RANGE.2 = (800 : ℝ) := rfl
  rw [e1] at hf1
  rw [e2] at hf2
  unfold manualTuneUp manualTuneDown
  rw [e1, e2]
  refine ⟨⟨le_min (by linarith) (by norm_num), min_le_right _ _⟩,
    ⟨le_max_right _ _, max_le (by linarith) (by norm_num)⟩⟩

/-- C2 witness: manual tuning from 440 Hz at the standard tuning rate
stays at or above 200 Hz. -/
theorem C2_manual_tuning_clamped_witness :
    FREQUENCY_RANGE.1 ≤ manualTuneUp 100 (1 / 60) 440 :=
  (C2_manual_tuning_clamped 100 (1 / 60) 440
    (by norm_num [FREQUENCY_RANGE]) (by norm_num [FREQUENCY_RANGE])
    (by norm_num)).1.1

/-- C2 counterexample: with the base resonance width (10 Hz), base max
velocity (10), an in-range target frequency of 800 Hz, a desired velocity
of 3 (thrust in `approach` speed mode, `10 * SPEED_FACTORS[0]`), and an
in-range previous drive of 500 Hz, manual-mode navigation
(ship.py:909-918) sets the drive frequency strictly above 800 Hz: the
claimed `[200, 800]` invariant fails after this mutating operation. -/
theorem C2_unclamped_navigation_counterexample :
    (FREQUENCY_RANGE.1 ≤ 500 ∧ (500 : ℝ) ≤ FREQUENCY_RANGE.2)
    ∧ (FREQUENCY_RANGE.1 ≤ 800 ∧ (800 : ℝ) ≤ FREQUENCY_RANGE.2)
    ∧ FREQUENCY_RANGE.2
        < manualNavDrive RESONANCE_WIDTH_BASE MAX_VELOCITY_BASE 800 3 500 := by
  have e1 : FREQUENCY_RANGE.1 = (200 : ℝ) := rfl
  have e2 : FREQUENCY_RANGE.2 = (800 : ℝ) := rfl
  refine ⟨⟨by rw [e1]; norm_num, by rw [e2]; norm_num⟩,
    ⟨by rw [e1]; norm_num, by rw [e2]⟩, ?_⟩
  unfold manualNavDrive RESONANCE_WIDTH_BASE MAX_VELOCITY_BASE
  rw [if_pos (by norm_num : (3 : ℝ) ≠ 0)]
  have habs : |(3 : ℝ)| = 3 := abs_of_pos (by norm_num)
  have hm : min (0.999 : ℝ) (|(3 : ℝ)| / 10) = 3 / 10 := by
    rw [habs]
    exact min_eq_right (by norm_num)
  rw [hm, if_pos (by norm_num : (0 : ℝ) < 3 / 10)]
  have hsign : signR (3 : ℝ) = 1 := by
    unfold signR
    rw [if_pos (by norm_num : (0 : ℝ) < 3)]
  rw [hsign, e2, show (1 : ℝ) / (3 / 10) - 1 = 7 / 3 by norm_num]
  have hpos : 0 < Real.sqrt (7 / 3) := Real.sqrt_pos.mpr (by norm_num)
  nlinarith [hpos]

/-- C3: the autopilot's inverse-resonance solve round-trips through the
forward Lorentzian exactly (hence well within the `1e-6` tolerance) for
every desired resonance in `(0, 0.99]` and positive width; a target 5
units away in one dimension with `SLOWDOWN_DIST = 20` yields a desired
resonance of exactly `0.25`, whose inverse solve is `width * sqrt 3`. -/
theorem C3_inverse_resonance_roundtrip (resDes width target : ℝ)
    (h0 : 0 < resDes) (h1 : resDes ≤ 0.99) (hw : 0 < width) :
    resonanceLevel (target + inverseResonanceDelta width resDes) target width
        = resDes
    ∧ |resonanceLevel (target + inverseResonanceDelta width resDes) target width
        - resDes| < 1 / 1000000
    ∧ autopilotTargetRes 5 5 10 = 0.25
    ∧ inverseResonanceDelta width 0.25 = width * Real.sqrt 3 := by
  have hX : 0 ≤ 1 / resDes - 1 := by
    rw [le_sub_iff_add_le, zero_add, le_div_iff₀ h0, one_mul]
    linarith
  have key : resonanceLevel (target + inverseResonanceDelta width resDes)
      target width = resDes := by
    unfold resonanceLevel inverseResonanceDelta
    rw [show target + width * Real.sqrt (1 / resDes - 1) - target
          = width * Real.sqrt (1 / resDes - 1) by ring,
      mul_div_cancel_left₀ _ (ne_of_gt hw), Real.sq_sqrt hX,
      show 1 + (1 / resDes - 1) = 1 / resDes by ring, one_div_one_div]
  refine ⟨key, by rw [key, sub_self, abs_zero]; norm_num, ?_, ?_⟩
  · have hval : (5 : ℝ) / 5 * 10 * min 1 (5 / SLOWDOWN_DIST) = 2.5 := by
      rw [show SLOWDOWN_DIST = (20 : ℝ) from rfl,
        min_eq_right (by norm_num : (5 : ℝ) / 20 ≤ 1)]
      norm_num
    unfold autopilotTargetRes
    rw [hval, abs_of_pos (by norm_num : (0 : ℝ) < 2.5),
      if_pos (by norm_num : (0.01 : ℝ) < 2.5),
      min_eq_right (by norm_num : (2.5 : ℝ) / 10 ≤ 0.999)]
    norm_num
  · unfold inverseResonanceDelta
    rw [show (1 : ℝ) / 0.25 - 1 = 3 by norm_num]

/-- C3 witness: round-trip at desired resonance `1/2`, width 1, target 0. -/
theorem C3_inverse_resonance_roundtrip_witness :
    resonanceLevel (0 + inverseResonanceDelta 1 (1 / 2)) 0 1 = 1 / 2 :=
  (C3_inverse_resonance_roundtrip (1 / 2) 1 0
    (by norm_num) (by norm_num) (by norm_num)).1

end

/-! ## Sound effect pool (src/audio_system.py)

Sample data of the precomputed waveform buffers is modelled by `ℚ` so that
the pool dynamics stay decidable; the pool logic never inspects sample
values. -/

/-- audio_system.py:26-48 `SoundEffect`: a waveform buffer with playback
position, stereo pan, loop flag and volume. -/
structure SoundEffect where
  wave : List ℚ
  position : ℕ
  pan : ℚ
  loop : Bool
  volume : ℚ
deriving DecidableEq

/-- audio_system.py:33-48 `SoundEffect.__init__`: the pitch multiplier is
applied once at creation by scaling the stored waveform
(`self.waveform = waveform * pitch`); playback position starts at 0. -/
def mkSoundEffect (waveform : List ℚ) (pan pitch : ℚ) (loop : Bool)
    (volume : ℚ) : SoundEffect :=
  { wave := waveform.map (fun x => x * pitch)
    position := 0
    pan := pan
    loop := loop
    volume := volume }

/-- audio_system.py:518-522: end-of-buffer handling after the mixing step —
an effect whose position is at or past the end of its buffer is reset to
position 0 when looping and removed (`none`) otherwise. -/
def advanceRemove (e1 : SoundEffect) : Option SoundEffect :=
  if e1.wave.length ≤ e1.position then
    if e1.loop then some { e1 with position := 0 } else none
  else some e1

/-- audio_system.py:508-522: advance of a single pooled effect by `frames`
samples inside the audio callback — an effect still inside its buffer has
its position advanced by `frames` (audio_system.py:509,517), then
end-of-buffer handling runs. -/
def advanceEffect (frames : ℕ) (e : SoundEffect) : Option SoundEffect :=
  advanceRemove
    (if e.position < e.wave.length
      then { e with position := e.position + frames } else e)

/-- audio_system.py:508-522: the callback's traversal of the whole pool,
keeping the advanced effects and dropping the removed ones, in order. -/
def advanceEffects (frames : ℕ) (es : List SoundEffect) : List SoundEffect :=
  es.filterMap (advanceEffect frames)

/-- Test fixture: a silent 100-sample non-looping buffer at position `p`
(end-to-end scenario 4 of the specification). -/
def pooled100 (p : ℕ) : SoundEffect :=
  { wave := List.replicate 100 0
    position := p
    pan := 0
    loop := false
    volume := 1 }

/-- Test fixture: a silent 100-sample looping buffer at position `p`. -/
def pooledLoop100 (p : ℕ) : SoundEffect :=
  { wave := List.replicate 100 0
    position := p
    pan := 0
    loop := true
    volume := 1 }

/-! ## Claim theorems: sound effect pool -/

/-- C6 (amended): a non-looping effect inside its buffer has its position
advanced by exactly `frames` and is removed exactly when the new position
reaches or passes the buffer length; a looping effect is never removed,
and when its advanced position reaches or passes the end of the buffer its
position is reset to 0 (not reduced modulo the buffer length); a
100-sample non-looping buffer advanced by 40 three times survives the
first two calls at positions 40 and 80 and is removed by the third. -/
theorem C6_sound_pool_advance (e : SoundEffect) (frames : ℕ) :
    (e.loop = false → e.position < e.wave.length →
      advanceEffect frames e =
        if e.position + frames < e.wave.length
        then some { e with position := e.position + frames }
        else none)
    ∧ (e.loop = true → ∃ e2 : SoundEffect, advanceEffect frames e = some e2)
    ∧ (e.loop = true → e.position < e.wave.length →
        e.wave.length ≤ e.position + frames →
        advanceEffect frames e = some { e with position := 0 })
    ∧ advanceEffects 40 [pooled100 0] = [pooled100 40]
    ∧ advanceEffects 40 [pooled100 40] = [pooled100 80]
    ∧ advanceEffects 40 [pooled100 80] = [] := by
  refine ⟨?_, ?_, ?_, by decide, by decide, by decide⟩
  · intro hl h2
    unfold advanceEffect advanceRemove
    rw [if_pos h2]
    by_cases h3 : e.position + frames < e.wave.length
    · rw [if_pos h3, if_neg (by simpa using not_le.mpr h3)]
    · rw [if_neg h3, if_pos (by simpa using not_lt.mp h3)]
      simp [hl]
  · intro hl
    unfold advanceEffect advanceRemove
    split_ifs <;> simp_all
  · intro hl h2 h3
    unfold advanceEffect advanceRemove
    rw [if_pos h2, if_pos (by simpa using h3)]
    simp [hl]

/-- C6 witness: advancing a non-looping effect at position 20 of a
100-sample buffer by 30 frames leaves it at position 50. -/
theorem C6_sound_pool_advance_witness :
    advanceEffect 30 (pooled100 20) = some (pooled100 50) := by
  have h := (C6_sound_pool_advance (pooled100 20) 30).1 rfl (by decide)
  simpa [pooled100] using h

/-- C6 counterexample: a looping 100-sample effect at position 60 advanced
by 60 frames lands at position 0, whereas wrapping modulo the buffer
length (as the claim states) would land at `(60 + 60) % 100 = 20`. -/
theorem C6_loop_reset_counterexample :
    advanceEffect 60 (pooledLoop100 60) = some (pooledLoop100 0)
    ∧ (60 + 60) % 100 = 20
    ∧ (0 : ℕ) ≠ 20 := by
  decide

noncomputable section

/-! ## Harmonic detection (src/audio_system.py, src/constants.py) -/

/-- constants.py:188-198 `HARMONIC_RATIOS`: the harmonic interval table,
in the dict's insertion order (which the detection scan follows). -/
def HARMONIC_RATIOS : List (String × ℝ) :=
  [("octave", 2), ("perfect_fifth", 1.5), ("perfect_fourth", 1.333),
    ("major_third", 1.25), ("minor_third", 1.2), ("major_sixth", 1.667),
    ("minor_sixth", 1.6), ("tritone", 1.414), ("golden", PHI)]

/-- audio_system.py:383-391: scan of the harmonic table — `q12` is the
forward frequency quotient `freq2 / freq1` and `q21` the inverse quotient;
the first table entry within tolerance `target * 0.02` of either quotient
wins (forward checked first), the Boolean recording which quotient
matched. -/
def matchHarmonic (q12 q21 : ℝ) : List (String × ℝ) → Option (Bool × String)
  | [] => none
  | (nm, rv) :: rest =>
      if |q12 - rv| < rv * HARMONIC_TOLERANCE then some (true, nm)
      else if |q21 - rv| < rv * HARMONIC_TOLERANCE then some (false, nm)
      else matchHarmonic q12 q21 rest

/-- audio_system.py:376-391: per-pair harmonic detection, with the code's
zero-guards `ratio = freq2 / freq1 if freq1 > 0 else 0` (and symmetrically
for the inverse quotient). -/
def pairHarmonic (freq1 freq2 : ℝ) : Option (Bool × String) :=
  matchHarmonic (if 0 < freq1 then freq2 / freq1 else 0)
    (if 0 < freq2 then freq1 / freq2 else 0) HARMONIC_RATIOS

/-- The ordered index pairs `i < j` traversed by the nested loops at
audio_system.py:374-375. -/
def upperPairs : List (Fin 5 × Fin 5) :=
  [(0, 1), (0, 2), (0, 3), (0, 4), (1, 2), (1, 3), (1, 4), (2, 3), (2, 4),
    (3, 4)]

/-- audio_system.py:360-393 `AudioSystem.detect_harmonic_pairs`: for each
index pair `i < j`, the first matching table entry is reported as
`(i, j, name)` for a forward match and `(j, i, name)` for an inverse
match; non-matching pairs are skipped. -/
def detect_harmonic_pairs (r_drive : Fin 5 → ℝ) :
    List (Fin 5 × Fin 5 × String) :=
  upperPairs.filterMap fun p =>
    match pairHarmonic (r_drive p.1) (r_drive p.2) with
    | some (true, nm) => some (p.1, p.2, nm)
    | some (false, nm) => some (p.2, p.1, nm)
    | none => none

/-! ## Helper lemmas on harmonic detection -/

lemma one_point_six_lt_phi : (1.6 : ℝ) < PHI := by
  unfold PHI
  have h : (2.2 : ℝ) < Real.sqrt 5 := by
    have h2 : (2.2 : ℝ) = Real.sqrt 4.84 := by
      rw [show (4.84 : ℝ) = 2.2 ^ 2 by norm_num, Real.sqrt_sq (by norm_num)]
    rw [h2]
    exact Real.sqrt_lt_sqrt (by norm_num) (by norm_num)
  linarith

lemma matchHarmonic_ratios_fifth (q12 q21 : ℝ)
    (h1 : ¬ |q12 - 2| < 2 * HARMONIC_TOLERANCE)
    (h2 : ¬ |q21 - 2| < 2 * HARMONIC_TOLERANCE)
    (h3 : |q12 - 1.5| < 1.5 * HARMONIC_TOLERANCE) :
    matchHarmonic q12 q21 HARMONIC_RATIOS = some (true, "perfect_fifth") := by
  unfold HARMONIC_RATIOS
  simp only [matchHarmonic]
  rw [if_neg h1, if_neg h2, if_pos h3]

lemma matchHarmonic_none (q12 q21 : ℝ) (l : List (String × ℝ))
    (h : ∀ p ∈ l, ¬ |q12 - p.2| < p.2 * HARMONIC_TOLERANCE
      ∧ ¬ |q21 - p.2| < p.2 * HARMONIC_TOLERANCE) :
    matchHarmonic q12 q21 l = none := by
  induction l with
  | nil => rfl
  | cons a rest ih =>
      obtain ⟨nm, rv⟩ := a
      obtain ⟨h1, h2⟩ := h (nm, rv) (List.mem_cons_self _ _)
      simp only [matchHarmonic]
      rw [if_neg h1, if_neg h2]
      exact ih fun p hp => h p (List.mem_cons_of_mem _ hp)

/-! ## Claim theorems: harmonic detection -/

/-- C7 (amended): a frequency pair with quotient exactly 1.5 is reported
as a perfect fifth; a quotient of 1.51 is also inside the 2% tolerance
band (|1.51 - 1.5| = 0.01 < 1.5 * 0.02 = 0.03) and is likewise reported
as a perfect fifth; a quotient must leave the band (beyond 1.53) to go
unreported — 1.54 matches no table entry at all; and the full scan
reports a fifth-quotient dimension pair in its output list. -/
theorem C7_fifth_detection (f : ℝ) (hf : 0 < f) :
    pairHarmonic f (1.5 * f) = some (true, "perfect_fifth")
    ∧ pairHarmonic f (1.51 * f) = some (true, "perfect_fifth")
    ∧ pairHarmonic f (1.54 * f) = none
    ∧ ∀ rd : Fin 5 → ℝ, rd 0 = f → rd 1 = 1.5 * f →
        ((0 : Fin 5), (1 : Fin 5), "perfect_fifth")
          ∈ detect_harmonic_pairs rd := by
  have hfne : f ≠ 0 := ne_of_gt hf
  have hq : ∀ c : ℝ, c * f / f = c := fun c => mul_div_cancel_right₀ c hfne
  have hq21 : ∀ c : ℝ, f / (c * f) = 1 / c := by
    intro c
    rw [mul_comm, ← div_div, div_self hfne]
  have hT : HARMONIC_TOLERANCE = (0.02 : ℝ) := rfl
  have key15 : pairHarmonic f (1.5 * f) = some (true, "perfect_fifth") := by
    unfold pairHarmonic
    rw [if_pos hf, if_pos (mul_pos (by norm_num : (0 : ℝ) < 1.5) hf),
      hq 1.5, hq21 1.5]
    apply matchHarmonic_ratios_fifth <;> rw [hT, abs_sub_lt_iff] <;> norm_num
  refine ⟨key15, ?_, ?_, ?_⟩
  · unfold pairHarmonic
    rw [if_pos hf, if_pos (mul_pos (by norm_num : (0 : ℝ) < 1.51) hf),
      hq 1.51, hq21 1.51]
    apply matchHarmonic_ratios_fifth <;> rw [hT, abs_sub_lt_iff] <;> norm_num
  · unfold pairHarmonic
    rw [if_pos hf, if_pos (mul_pos (by norm_num : (0 : ℝ) < 1.54) hf),
      hq 1.54, hq21 1.54]
    apply matchHarmonic_none
    intro p hp
    fin_cases hp <;> dsimp only [] <;> constructor <;>
      rw [hT, abs_sub_lt_iff] <;> rintro ⟨ha, hb⟩ <;>
      linarith [one_point_six_lt_phi]
  · intro rd h0 h1
    unfold detect_harmonic_pairs
    rw [List.mem_filterMap]
    refine ⟨((0 : Fin 5), (1 : Fin 5)), by simp [upperPairs], ?_⟩
    dsimp only []
    rw [h0, h1, key15]

/-- C7 witness: the pair 400 Hz / 600 Hz (quotient exactly 1.5) is
reported as a perfect fifth. -/
theorem C7_fifth_detection_witness :
    pairHarmonic 400 (1.5 * 400) = some (true, "perfect_fifth") :=
  (C7_fifth_detection 400 (by norm_num)).1

/-- C7 counterexample: the pair 400 Hz / 604 Hz has quotient exactly 1.51,
which the claim says must not be reported; the detection does report it
(as a perfect fifth), since |1.51 - 1.5| = 0.01 < 1.5 * 0.02. -/
theorem C7_tolerance_counterexample :
    pairHarmonic 400 604 = some (true, "perfect_fifth")
    ∧ pairHarmonic 400 604 ≠ none := by
  have key : pairHarmonic 400 604 = some (true, "perfect_fifth") := by
    unfold pairHarmonic
    rw [if_pos (by norm_num : (0 : ℝ) < 400),
      if_pos (by norm_num : (0 : ℝ) < 604),
      show (604 : ℝ) / 400 = 1.51 by norm_num,
      show (400 : ℝ) / 604 = 100 / 151 by norm_num]
    apply matchHarmonic_ratios_fifth <;>
      rw [show HARMONIC_TOLERANCE = (0.02 : ℝ) from rfl, abs_sub_lt_iff] <;>
      norm_num
  exact ⟨key, by rw [key]; exact Option.some_ne_none _⟩

/-! ## Audio synthesis engine (src/audio_system.py `_audio_callback`) -/

/-- audio_system.py:20 `VIBRATO_DEPTH_BASE = 0.25`. -/
def VIBRATO_DEPTH_BASE : ℝ := 0.25

/-- audio_system.py:21 `VIBRATO_DEPTH_MAX = 1.1`. -/
def VIBRATO_DEPTH_MAX : ℝ := 1.1

/-- audio_system.py:22 `VIBRATO_RATE_BASE = 3.4`. -/
def VIBRATO_RATE_BASE : ℝ := 3.4

/-- audio_system.py:23 `VIBRATO_RATE_MAX = 4.3`. -/
def VIBRATO_RATE_MAX : ℝ := 4.3

/-- audio_system.py:338-358 `AudioSystem.get_vibrato_phase`: two layered
LFOs at golden-ratio intervals, depth and rate scaled by the resonance
level (linearly and quadratically respectively). -/
def get_vibrato_phase (t resonance_level : ℝ) : ℝ :=
  let depth := VIBRATO_DEPTH_BASE
    + (VIBRATO_DEPTH_MAX - VIBRATO_DEPTH_BASE) * resonance_level
  let lfoRate := VIBRATO_RATE_BASE
    + (VIBRATO_RATE_MAX - VIBRATO_RATE_BASE) * resonance_level ^ 2
  depth * (Real.sin (2 * Real.pi * lfoRate * t)
    + Real.sin (2 * Real.pi * (lfoRate * PHI) * t) * 0.3)

/-- The slice of the `Ship` object read by the audio callback
(`self.ship` in audio_system.py). -/
structure ShipSnapshot where
  r_drive : Fin 5 → ℝ
  f_target : Fin 5 → ℝ
  resonance_width : ℝ
  resonance_power : Fin 5 → ℝ
  landed_mode : Bool
  rift_charge_timer : ℝ

/-- audio_system.py:425-458: drive signal of one dimension at time `t` —
fundamental sine at half the drive frequency with vibrato phase offset,
three golden-ratio overtones with `0.25 / k` falloff, a subharmonic at
`1/PHI` with half-depth vibrato, and (for the two higher dimensions) a
slow tremolo at `0.5 * PHI` Hz of depth 5%. -/
def dimSignal (drive_volume : ℝ) (sh : ShipSnapshot) (t : ℝ) (i : Fin 5) : ℝ :=
  let base_freq := sh.r_drive i / 2
  let res_level := resonanceLevel (sh.r_drive i) (sh.f_target i)
    sh.resonance_width
  let vib := get_vibrato_phase t res_level
  let fund := drive_volume * Real.sin (2 * Real.pi * base_freq * t + vib)
  let overtone := fun k : ℕ =>
    drive_volume * 0.25 / (k : ℝ)
      * Real.sin (2 * Real.pi * (base_freq * PHI ^ k) * t + vib)
  let sub := drive_volume * 0.15
    * Real.sin (2 * Real.pi * (base_freq / PHI) * t + vib * 0.5)
  let s := fund + (overtone 1 + overtone 2 + overtone 3) + sub
  if 3 ≤ (i : ℕ)
    then s * (1 + Real.sin (2 * Real.pi * (0.5 * PHI) * t) * 0.05) else s

/-- audio_system.py:465-473: sum- and difference-frequency
intermodulation tone for a harmonically related pair (arguments are the
two half drive frequencies). -/
def intermodTone (drive_volume f1h f2h t : ℝ) : ℝ :=
  INTERMOD_DEPTH * drive_volume
    * (Real.sin (2 * Real.pi * (f1h + f2h) * t) * 0.5
      + Real.sin (2 * Real.pi * |f1h - f2h| * t) * 0.7)

/-- audio_system.py:424-475: full per-dimension signal — the dimension's
own drive signal plus the intermodulation tones of every detected harmonic
pair the dimension belongs to. -/
def dimSignalFull (drive_volume : ℝ) (sh : ShipSnapshot) (t : ℝ)
    (i : Fin 5) : ℝ :=
  dimSignal drive_volume sh t i
    + (detect_harmonic_pairs sh.r_drive).foldl (fun acc trip =>
        if trip.1 = i ∨ trip.2.1 = i then
          acc + intermodTone drive_volume (sh.r_drive trip.1 / 2)
            (sh.r_drive trip.2.1 / 2) t
        else acc) 0

/-- audio_system.py:478
`left_signal = signals[0] + signals[1]*0.5 + signals[3]*0.7 + signals[4]*0.3`. -/
def leftMix (sig : Fin 5 → ℝ) : ℝ :=
  sig 0 + sig 1 * 0.5 + sig 3 * 0.7 + sig 4 * 0.3

/-- audio_system.py:479
`right_signal = signals[2] + signals[1]*0.5 + signals[3]*0.3 + signals[4]*0.7`. -/
def rightMix (sig : Fin 5 → ℝ) : ℝ :=
  sig 2 + sig 1 * 0.5 + sig 3 * 0.3 + sig 4 * 0.7

/-- audio_system.py:509-512: sample `n` of a pooled effect during mixing —
the effect contributes only while its position is inside the buffer, and
reads past the segment end are zero-padded. -/
def effectSample (e : SoundEffect) (n : ℕ) : ℝ :=
  if e.position < e.wave.length then ((e.wave.getD (e.position + n) 0 : ℚ) : ℝ)
  else 0

/-- audio_system.py:513: equal-power left gain
`sqrt((1 - pan) / 2) * volume`. -/
def effectLeftGain (e : SoundEffect) : ℝ :=
  Real.sqrt ((1 - (e.pan : ℝ)) / 2) * (e.volume : ℝ)

/-- audio_system.py:514: equal-power right gain
`sqrt((1 + pan) / 2) * volume`. -/
def effectRightGain (e : SoundEffect) : ℝ :=
  Real.sqrt ((1 + (e.pan : ℝ)) / 2) * (e.volume : ℝ)

/-- audio_system.py:534 `np.clip(signal, -1.0, 1.0)`. -/
def clip (x : ℝ) : ℝ := max (-1) (min 1 x)

/-- The state of the `AudioSystem` object (audio_system.py:58-88) as far as
the audio callback reads and writes it: the four config volumes, the
precomputed chord waveform (used by the power-chord logic), the running
audio clock, the effect pool, and the optional ship reference. -/
structure AudioState where
  master_volume : ℚ
  beep_volume : ℚ
  effect_volume : ℚ
  drive_volume : ℚ
  chord_waveform : List ℚ
  audio_time : ℝ
  active_sound_effects : List SoundEffect
  ship : Option ShipSnapshot

/-- audio_system.py:487-497: power-chord pool maintenance — when the ship
is not landed and some dimension's resonance power exceeds
`POWER_BUILD_TIME - 1`, a chord effect is appended unless one is already
playing; otherwise every chord effect is removed (a no-op filter when none
is present, matching the code's `elif`). -/
def powerChordUpdate (sh : ShipSnapshot) (chord : List ℚ) (effect_volume : ℚ)
    (es : List SoundEffect) : List SoundEffect :=
  if sh.landed_mode = false
      ∧ ∃ i : Fin 5, POWER_BUILD_TIME - 1 < sh.resonance_power i then
    if es.filter (fun e => e.wave = chord) = [] then
      es ++ [mkSoundEffect chord 0 1 false effect_volume]
    else es
  else es.filter (fun e => ¬ e.wave = chord)

/-- audio_system.py:413-535: one output sample of the callback at frame
offset `n` — Schumann carrier, the five full dimension signals mixed by
`leftMix`/`rightMix`, ambient modulation, the rift-charge rising tone,
the pooled effects with equal-power panning, master volume, and the final
clip (Schumann is added after the master volume, as in the code). -/
def audioSample (st : AudioState) (sh : ShipSnapshot) (es : List SoundEffect)
    (n : ℕ) : ℝ × ℝ :=
  let t := (n : ℝ) / SAMPLE_RATE + st.audio_time
  let schumann := SCHUMANN_VOLUME * Real.sin (2 * Real.pi * SCHUMANN_FREQ * t)
  let sig := dimSignalFull (st.drive_volume : ℝ) sh t
  let ambient := 0.01 * (0.5 + 0.5 * Real.sin (2 * Real.pi * (0.1 * PHI) * t))
    * Real.sin (2 * Real.pi * (30 * PHI) * t)
  let charge := if 0 < sh.rift_charge_timer then
      0.1 * Real.sin (2 * Real.pi * (220 + 660
        * ((RIFT_CHARGE_TIME - sh.rift_charge_timer) / RIFT_CHARGE_TIME)) * t)
        * (st.effect_volume : ℝ)
    else 0
  let effL := es.foldl (fun acc e => acc + effectSample e n * effectLeftGain e) 0
  let effR := es.foldl (fun acc e => acc + effectSample e n * effectRightGain e) 0
  (clip ((leftMix sig + ambient + charge + effL) * (st.master_volume : ℝ)
      + schumann),
    clip ((rightMix sig + ambient + charge + effR) * (st.master_volume : ℝ)
      + schumann))

/-- audio_system.py:413-535: the full output buffer of one callback
invocation with a ship attached. -/
def audioOutput (st : AudioState) (sh : ShipSnapshot) (es : List SoundEffect)
    (frames : ℕ) : List (ℝ × ℝ) :=
  (List.range frames).map (audioSample st sh es)

/-- audio_system.py:395-535 `AudioSystem._audio_callback`: with no ship
attached the callback writes a silent buffer and returns at once
(audio_system.py:408-411, before the clock advances); otherwise it
advances the audio clock by `frames / SAMPLE_RATE`, runs the power-chord
pool maintenance, synthesizes the output from the pre-advance effect
positions, and advances/removes the pooled effects. -/
def audioCallback (st : AudioState) (frames : ℕ) :
    List (ℝ × ℝ) × AudioState :=
  match st.ship with
  | none => (List.replicate frames (0, 0), st)
  | some sh =>
      let es := powerChordUpdate sh st.chord_waveform st.effect_volume
        st.active_sound_effects
      (audioOutput st sh es frames,
        { st with
            audio_time := st.audio_time + (frames : ℝ) / SAMPLE_RATE
            active_sound_effects := advanceEffects frames es })

/-! ## Claim theorems: audio synthesis -/

/-- C8 (amended): the per-channel weights of the five dimension signals
are fixed: dimension 0 feeds only the left channel (weight 1), dimension 2
only the right channel (weight 1), dimension 1 feeds both at 0.5, and
dimensions 3 and 4 feed left/right at 0.7/0.3 and 0.3/0.7 respectively. -/
theorem C8_stereo_mix_weights (sig : Fin 5 → ℝ) :
    leftMix sig
        = 1 * sig 0 + 0.5 * sig 1 + 0 * sig 2 + 0.7 * sig 3 + 0.3 * sig 4
    ∧ rightMix sig
        = 0 * sig 0 + 0.5 * sig 1 + 1 * sig 2 + 0.3 * sig 3 + 0.7 * sig 4 := by
  refine ⟨by unfold leftMix; ring, by unfold rightMix; ring⟩

/-- C8 counterexample: a unit signal in dimension 0 contributes nothing to
the right channel and a unit signal in dimension 2 contributes nothing to
the left channel, contradicting the claim that dimensions 0, 1 and 2 each
contribute to both channels. -/
theorem C8_pan_counterexample :
    leftMix (fun j => if j = 0 then 1 else 0) = 1
    ∧ rightMix (fun j => if j = 0 then 1 else 0) = 0
    ∧ leftMix (fun j => if j = 2 then 1 else 0) = 0
    ∧ rightMix (fun j => if j = 2 then 1 else 0) = 1 := by
  refine ⟨?_, ?_, ?_, ?_⟩ <;>
    norm_num [leftMix, rightMix,
      (by decide : ¬(1 : Fin 5) = 0), (by decide : ¬(3 : Fin 5) = 0),
      (by decide : ¬(4 : Fin 5) = 0), (by decide : ¬(2 : Fin 5) = 0),
      (by decide : ¬(0 : Fin 5) = 2), (by decide : ¬(1 : Fin 5) = 2),
      (by decide : ¬(3 : Fin 5) = 2), (by decide : ¬(4 : Fin 5) = 2)]

/-- C9: a callback invocation with no ship attached outputs an all-zero
stereo buffer and leaves the audio state (clock, pool, volumes) fully
unchanged. -/
theorem C9_callback_silent_without_ship (st : AudioState) (frames : ℕ)
    (h : st.ship = none) :
    audioCallback st frames = (List.replicate frames (0, 0), st) := by
  unfold audioCallback
  rw [h]

/-- Test fixture: a freshly initialised audio state (the config fallback
volumes of audio_system.py:69-72) with no ship attached. -/
def freshAudioState : AudioState :=
  { master_volume := 0.2
    beep_volume := 0.3
    effect_volume := 0.2
    drive_volume := 0.05
    chord_waveform := []
    audio_time := 0
    active_sound_effects := []
    ship := none }

/-- C9 witness: a 4-frame callback on a fresh shipless state returns four
zero samples and the unchanged state. -/
theorem C9_callback_silent_without_ship_witness :
    audioCallback freshAudioState 4
      = (List.replicate 4 (0, 0), freshAudioState) :=
  C9_callback_silent_without_ship freshAudioState 4 rfl

/-! ## Ship landed-mode update (src/ship.py `Ship.update`) -/

/-- The clamp `max(FREQUENCY_RANGE[0], min(FREQUENCY_RANGE[1], f))` applied
to target frequencies at ship.py:1821 and ship.py:1840. -/
def clampFreq (f : ℝ) : ℝ := max FREQUENCY_RANGE.1 (min FREQUENCY_RANGE.2 f)

/-- The slice of the `Ship` object read, written, or skipped by the
landed-mode branch of `Ship.update`. -/
structure ShipState where
  position : Fin 5 → ℝ
  velocity : Fin 5 → ℝ
  r_drive : Fin 5 → ℝ
  f_target : Fin 5 → ℝ
  resonance_levels : Fin 5 → ℝ
  resonance_power : Fin 5 → ℝ
  resonance_width : ℝ
  dissonance_timer : ℝ
  landed_mode : Bool
  planet_biome_dissonant : Bool

/-- ship.py:1817-1825: the landed-mode early-return branch of the tick —
velocity is zeroed, each target frequency drifts by a random amount of
magnitude at most `shift` (`10 * dt` on a dissonant biome, `1 * dt`
otherwise; the draw `random.uniform(-shift, shift)` is modelled by the
nondeterminism parameter `draws i * shift`) and is clamped into
`FREQUENCY_RANGE`, the resonance levels are recomputed from the new
targets through the plain resonance width, and the branch returns before
any other field (position, power accumulators, dissonance timer, drive
frequencies) is touched. -/
def landedUpdate (dt : ℝ) (draws : Fin 5 → ℝ) (s : ShipState) : ShipState :=
  let shift := if s.planet_biome_dissonant then 10 * dt else 1 * dt
  let newTarget : Fin 5 → ℝ := fun i =>
    clampFreq (s.f_target i + draws i * shift)
  { s with
      velocity := fun _ => 0
      f_target := newTarget
      resonance_levels := fun i =>
        resonanceLevel (s.r_drive i) (newTarget i) s.resonance_width }

/-! ## Claim theorems: landed-mode tick -/

/-- C10: a tick taken in landed mode zeroes the velocity vector, leaves
every recomputed target frequency inside `[200, 800]`, recomputes each
resonance level from the drive and the new target through the resonance
width, and leaves the position, the power accumulators, the dissonance
timer and the drive frequencies unchanged. -/
theorem C10_landed_tick (dt : ℝ) (draws : Fin 5 → ℝ) (s : ShipState) :
    (landedUpdate dt draws s).velocity = (fun _ => 0)
    ∧ (∀ i, FREQUENCY_RANGE.1 ≤ (landedUpdate dt draws s).f_target i
        ∧ (landedUpdate dt draws s).f_target i ≤ FREQUENCY_RANGE.2)
    ∧ (∀ i, (landedUpdate dt draws s).resonance_levels i
        = resonanceLevel (s.r_drive i)
            ((landedUpdate dt draws s).f_target i) s.resonance_width)
    ∧ (landedUpdate dt draws s).position = s.position
    ∧ (landedUpdate dt draws s).resonance_power = s.resonance_power
    ∧ (landedUpdate dt draws s).dissonance_timer = s.dissonance_timer
    ∧ (landedUpdate dt draws s).r_drive = s.r_drive := by
  refine ⟨rfl, ?_, fun i => rfl, rfl, rfl, rfl, rfl⟩
  intro i
  show FREQUENCY_RANGE.1 ≤ clampFreq _ ∧ clampFreq _ ≤ FREQUENCY_RANGE.2
  unfold clampFreq
  refine ⟨le_max_left _ _, max_le ?_ (min_le_left _ _)⟩
  norm_num [FREQUENCY_RANGE]

end

end SpaceSim
